import Mathlib

/-!
Shallow embedding of the `solana-rpc-tower` middleware pipeline:
JSON values, the response-body parser and its JSON-RPC error taxonomy
(`src/service/parse_response_body.rs`), the response cache middleware
(`src/middleware/cache.rs`), the 429-retry policy
(`src/middleware/retry_429.rs`), the early-return interceptor
(`src/middleware/early_return.rs`), and the sender adapter
(`src/service/rpc_sender_impl.rs`).

Machine integers are modelled as `Nat`/`Int` with explicit range checks where
the Rust code can observe overflow; `Instant`s are abstract `Nat` time stamps;
fallible or panicking paths return `Option`/`Except`.  Asynchronous futures
are collapsed to their resolved values: a middleware `call` is modelled as a
function from the request (and the relevant shared state) to the produced
result together with the successor state and a flag recording whether the
inner service was invoked.
-/

deriving instance DecidableEq for Except

namespace SolanaRpcTower

/-- Model of `serde_json::Value`.  Numbers are modelled as arbitrary-precision integers
(the claims under verification never exercise fractional numbers); objects are
association lists with the unique-key discipline serde's map parsing
guarantees. -/
inductive Value where
  | null : Value
  | bool (b : Bool) : Value
  | num (n : Int) : Value
  | str (s : String) : Value
  | arr (xs : List Value) : Value
  | obj (fields : List (String × Value)) : Value

mutual

/-- Structural decidable equality on `Value` (the automatic derivation does
not support this nested inductive). -/
def Value.decEq : (a b : Value) → Decidable (a = b)
  | .null, .null => .isTrue rfl
  | .bool a, .bool b => decidable_of_iff (a = b) (by simp)
  | .num a, .num b => decidable_of_iff (a = b) (by simp)
  | .str a, .str b => decidable_of_iff (a = b) (by simp)
  | .arr xs, .arr ys =>
    match Value.decEqList xs ys with
    | .isTrue h => .isTrue (by rw [h])
    | .isFalse h => .isFalse (by simp [h])
  | .obj xs, .obj ys =>
    match Value.decEqFields xs ys with
    | .isTrue h => .isTrue (by rw [h])
    | .isFalse h => .isFalse (by simp [h])
  | .null, .bool _ | .null, .num _ | .null, .str _ | .null, .arr _ | .null, .obj _
  | .bool _, .null | .bool _, .num _ | .bool _, .str _ | .bool _, .arr _ | .bool _, .obj _
  | .num _, .null | .num _, .bool _ | .num _, .str _ | .num _, .arr _ | .num _, .obj _
  | .str _, .null | .str _, .bool _ | .str _, .num _ | .str _, .arr _ | .str _, .obj _
  | .arr _, .null | .arr _, .bool _ | .arr _, .num _ | .arr _, .str _ | .arr _, .obj _
  | .obj _, .null | .obj _, .bool _ | .obj _, .num _ | .obj _, .str _ | .obj _, .arr _ =>
    .isFalse (fun h => Value.noConfusion h)

/-- Decidable equality on lists of `Value`. -/
def Value.decEqList : (xs ys : List Value) → Decidable (xs = ys)
  | [], [] => .isTrue rfl
  | [], _ :: _ => .isFalse (fun h => List.noConfusion h)
  | _ :: _, [] => .isFalse (fun h => List.noConfusion h)
  | x :: xs, y :: ys =>
    match Value.decEq x y, Value.decEqList xs ys with
    | .isTrue h1, .isTrue h2 => .isTrue (by rw [h1, h2])
    | .isFalse h1, _ => .isFalse (by simp [h1])
    | _, .isFalse h2 => .isFalse (by simp [h2])

/-- Decidable equality on lists of object fields. -/
def Value.decEqFields : (xs ys : List (String × Value)) → Decidable (xs = ys)
  | [], [] => .isTrue rfl
  | [], _ :: _ => .isFalse (fun h => List.noConfusion h)
  | _ :: _, [] => .isFalse (fun h => List.noConfusion h)
  | (k, v) :: xs, (k', v') :: ys =>
    match String.decEq k k', Value.decEq v v', Value.decEqFields xs ys with
    | .isTrue h0, .isTrue h1, .isTrue h2 => .isTrue (by rw [h0, h1, h2])
    | .isFalse h0, _, _ => .isFalse (by simp [h0])
    | _, .isFalse h1, _ => .isFalse (by simp [h1])
    | _, _, .isFalse h2 => .isFalse (by simp [h2])

end

instance : DecidableEq Value := Value.decEq

/-- First-match association-list lookup (serde's maps and `http::HeaderMap`
keep unique keys, so first-match agrees with map lookup). -/
def assoc {α β : Type} [DecidableEq α] : List (α × β) → α → Option β
  | [], _ => none
  | (k, v) :: rest, key => if k = key then some v else assoc rest key

/-- Model of `Value::is_object`. -/
def Value.isObject : Value → Bool
  | .obj _ => true
  | _ => false

/-- Immutable string indexing `json["key"]` (`serde_json`'s `Index<&str>`):
missing keys and non-object receivers read as `Null`. -/
def Value.getKey : Value → String → Value
  | .obj fields, key =>
    match assoc fields key with
    | some v => v
    | none => .null
  | _, _ => .null

/-- The value produced by `json["key"].take()` through `serde_json`'s
`IndexMut` (`index_or_insert`): on an object the entry (or `Null` when the key
is absent), on `Null` the receiver is first replaced by an empty object so the
read yields `Null`; on every other receiver the Rust code panics, modelled as
`none`. -/
def Value.takeKey : Value → String → Option Value
  | .obj fields, key =>
    some (match assoc fields key with
          | some v => v
          | none => .null)
  | .null, _ => some .null
  | _, _ => none

/-- A subset of `solana_client::rpc_request::RpcRequest` method identifiers,
closed off by `custom`; the middleware under verification only ever compares
request identifiers for equality. -/
inductive RpcRequest where
  | getBalance : RpcRequest
  | getVersion : RpcRequest
  | getSlot : RpcRequest
  | getLatestBlockhash : RpcRequest
  | custom (method : String) : RpcRequest
deriving DecidableEq

/-- Model of `(RpcRequest, Value)`, the request tuple sent through the pipeline. -/
abbrev SolanaClientRequest := RpcRequest × Value

/-- Model of `RpcSimulateTransactionResult` (from `solana_client::rpc_response`).
The fields typed by external enums/structs (`TransactionError`, `UiAccount`,
`UiTransactionReturnData`) are abstracted as the raw JSON they were decoded
from; `logs` and `unitsConsumed` are decoded precisely. -/
structure RpcSimulateTransactionResult where
  err : Value
  logs : Option (List String)
  accounts : Value
  unitsConsumed : Option Nat
  returnData : Value
deriving DecidableEq

/-- Model of `RpcResponseErrorData` (from `solana_client::rpc_request`). -/
inductive RpcResponseErrorData where
  | empty : RpcResponseErrorData
  | sendTransactionPreflightFailure (result : RpcSimulateTransactionResult) : RpcResponseErrorData
  | nodeUnhealthy (numSlotsBehind : Option Nat) : RpcResponseErrorData
deriving DecidableEq

/-- Model of `solana_client::rpc_request::RpcError`, restricted to the variants this
crate constructs. -/
inductive RpcError where
  | rpcRequestError (message : String) : RpcError
  | rpcResponseError (code : Int) (message : String) (data : RpcResponseErrorData) : RpcError
deriving DecidableEq

/-- Decoding a JSON number as an `i64` (`serde_json` accepts exactly the
integers representable in 64 signed bits). -/
def decodeI64 : Value → Option Int
  | .num n => if -(2 ^ 63) ≤ n ∧ n < 2 ^ 63 then some n else none
  | _ => none

/-- Decoding a JSON number as a `u64`. -/
def decodeU64 : Value → Option Nat
  | .num n => if 0 ≤ n ∧ n < 2 ^ 64 then some n.toNat else none
  | _ => none

/-- The helper struct `RpcErrorObject { code: i64, message: String }` used to
decode the `"error"` member of a JSON-RPC response. -/
structure RpcErrorObject where
  code : Int
  message : String
deriving DecidableEq

/-- serde deserialization of `RpcErrorObject`: requires a JSON object with an
`i64` `"code"` and string `"message"`; unknown fields are ignored. -/
def decodeRpcErrorObject : Value → Option RpcErrorObject
  | .obj fields => do
    let codeJson ← assoc fields "code"
    let code ← decodeI64 codeJson
    let messageJson ← assoc fields "message"
    let message ← match messageJson with
      | .str s => some s
      | _ => none
    pure ⟨code, message⟩
  | _ => none

/-- serde deserialization of a `Vec<String>` element list. -/
def decodeStringList : List Value → Option (List String)
  | [] => some []
  | .str s :: rest => (decodeStringList rest).map (s :: ·)
  | _ => none

/-- serde deserialization of an `Option<Vec<String>>` field. -/
def decodeOptStringList : Option Value → Option (Option (List String))
  | none => some none
  | some .null => some none
  | some (.arr xs) => (decodeStringList xs).map some
  | some _ => none

/-- serde deserialization of an `Option<u64>` field. -/
def decodeOptU64 : Option Value → Option (Option Nat)
  | none => some none
  | some .null => some none
  | some v => (decodeU64 v).map some

/-- serde deserialization of `RpcSimulateTransactionResult` (camelCase field
names, every field optional so absent fields default; must be a JSON object).
Externally-typed payload fields are kept as raw JSON, so this decoder accepts
a superset of the inputs the real derive accepts; the theorems below only
depend on its *failures*, which are failures of the real decoder as well. -/
def decodeRpcSimulateTransactionResult (v : Value) : Option RpcSimulateTransactionResult :=
  match v with
  | .obj fields => do
    let logs ← decodeOptStringList (assoc fields "logs")
    let unitsConsumed ← decodeOptU64 (assoc fields "unitsConsumed")
    pure { err := (Value.obj fields).getKey "err"
           logs := logs
           accounts := (Value.obj fields).getKey "accounts"
           unitsConsumed := unitsConsumed
           returnData := (Value.obj fields).getKey "returnData" }
  | _ => none

/-- serde deserialization of
`NodeUnhealthyErrorData { num_slots_behind: Option<Slot> }` (camelCase):
requires a JSON object; the optional field may be absent, `null`, or a `u64`. -/
def decodeNodeUnhealthyErrorData : Value → Option (Option Nat)
  | .obj fields => decodeOptU64 (assoc fields "numSlotsBehind")
  | _ => none

/-- The constant `JSON_RPC_SERVER_ERROR_SEND_TRANSACTION_PREFLIGHT_FAILURE`. -/
def PREFLIGHT_FAILURE : Int := -32002

/-- The constant `JSON_RPC_SERVER_ERROR_NODE_UNHEALTHY`. -/
def NODE_UNHEALTHY : Int := -32005

/-- Model of `parse_rpc_error` (src/service/parse_response_body.rs).  The Rust error
message interpolates the serialized body and the serde error; the model keeps
the fixed diagnostic prefix. -/
def parse_rpc_error (json : Value) : Except RpcError Value :=
  match decodeRpcErrorObject json with
  | none => Except.error (.rpcRequestError "Failed to deserialize RPC error response")
  | some rpcErrorObject =>
    let data : RpcResponseErrorData :=
      if rpcErrorObject.code = PREFLIGHT_FAILURE then
        match decodeRpcSimulateTransactionResult (json.getKey "data") with
        | some d => .sendTransactionPreflightFailure d
        | none => .empty
      else if rpcErrorObject.code = NODE_UNHEALTHY then
        match decodeNodeUnhealthyErrorData (json.getKey "data") with
        | some numSlotsBehind => .nodeUnhealthy numSlotsBehind
        | none => .empty
      else .empty
    Except.error (.rpcResponseError rpcErrorObject.code rpcErrorObject.message data)

/-- Model of `parse_response_errors` (src/service/parse_response_body.rs): `none`
models the panic of `json["result"].take()` on a non-object, non-null body. -/
def parse_response_errors (json : Value) : Option (Except RpcError Value) :=
  if (json.getKey "error").isObject then
    (json.takeKey "error").map parse_rpc_error
  else
    (json.takeKey "result").map Except.ok

/-! Response cache middleware (src/middleware/cache.rs) -/

/-- Model of `CacheEntry { response: Value, at: Instant }`; the `Instant` is an
abstract `Nat` time stamp (field `atTime`). -/
structure CacheEntry where
  response : Value
  atTime : Nat
deriving DecidableEq

/-- The `HashMap<Value, CacheEntry>` behind the cache's `RwLock`, as an
association list with unique keys. -/
abbrev CacheMap := List (Value × CacheEntry)

/-- Model of `HashMap::get`. -/
def lookupCache : CacheMap → Value → Option CacheEntry
  | [], _ => none
  | (k, e) :: rest, params => if k = params then some e else lookupCache rest params

/-- Model of `HashMap::insert`: replaces the entry for an existing key, appends
otherwise. -/
def insertCache : CacheMap → Value → CacheEntry → CacheMap
  | [], params, entry => [(params, entry)]
  | (k, e) :: rest, params, entry =>
    if k = params then (params, entry) :: rest
    else (k, e) :: insertCache rest params entry

/-- One resolved call through `ResponseCacheService::call` followed (on the
forwarding path) by `CachedResponseFuture::poll`:
`target`/`ttl` are the service's `request_type`/`max_cache_age`, `inner` the
resolved inner service, `cache` the map contents, `now` the current time
(`entry.at.elapsed() = now - atTime`).  Returns the produced result, the map
after the call, and whether the inner service was invoked. -/
def responseCacheCall (target : RpcRequest) (ttl : Nat)
    (inner : SolanaClientRequest → Except String Value)
    (cache : CacheMap) (now : Nat) (req : SolanaClientRequest) :
    Except String Value × CacheMap × Bool :=
  if req.1 = target then
    match lookupCache cache req.2 with
    | some entry =>
      if now - entry.atTime < ttl then
        (Except.ok entry.response, cache, false)
      else
        match inner req with
        | .ok v => (Except.ok v, insertCache cache req.2 ⟨v, now⟩, true)
        | .error e => (Except.error e, cache, true)
    | none =>
      match inner req with
      | .ok v => (Except.ok v, insertCache cache req.2 ⟨v, now⟩, true)
      | .error e => (Except.error e, cache, true)
  else (inner req, cache, true)

/-! Early-return interceptor (src/middleware/early_return.rs) -/

/-- One resolved call through `MaybeEarlyReturn::call`: the Boolean records
whether the inner service was invoked. -/
def maybeEarlyReturnCall (f : RpcRequest → Value → Option (Except String Value))
    (inner : SolanaClientRequest → Except String Value)
    (req : SolanaClientRequest) : Except String Value × Bool :=
  match f req.1 req.2 with
  | none => (inner req, true)
  | some result => (result, false)

/-! The 429-retry policy (src/middleware/retry_429.rs) -/

/-- Model of `reqwest::Error`, opaque to the retry policy. -/
structure ReqwestError where
  description : String
deriving DecidableEq

/-- The slice of a `reqwest::Response` the retry policy inspects: the HTTP
status and the headers (lower-case names mapped to raw value bytes). -/
structure HttpResponse where
  status : Nat
  headers : List (String × List Nat)
deriving DecidableEq

/-- Model of `StatusCode::is_success`: `200..=299`. -/
def statusIsSuccess (status : Nat) : Bool :=
  200 ≤ status && status < 300

/-- Model of `http::HeaderValue::to_str`: defined only when every byte is visible
ASCII (or a tab). -/
def headerValueToStr (bytes : List Nat) : Option String :=
  if bytes.all (fun b => b = 9 || (32 ≤ b && b < 127)) then
    some (String.mk (bytes.map Char.ofNat))
  else none

/-- Rust's `str::parse::<u64>`: an optional leading `+`, then one or more
ASCII digits, and the value must fit in 64 bits. -/
def parseU64 (s : String) : Option Nat :=
  let digits := match s.toList with
    | '+' :: rest => rest
    | cs => cs
  if digits ≠ [] ∧ digits.all Char.isDigit then
    let n := digits.foldl (fun acc c => acc * 10 + (c.toNat - 48)) 0
    if n < 2 ^ 64 then some n else none
  else none

/-- Model of `TooManyRequestsRetry { retries_remaining, rate_limited_time }`; the
duration is in milliseconds. -/
structure TooManyRequestsRetry where
  retriesRemaining : Nat
  rateLimitedTime : Nat
deriving DecidableEq

/-- Model of `TooManyRequestsRetry::new`. -/
def TooManyRequestsRetry.new (numRetries : Nat) : TooManyRequestsRetry :=
  ⟨numRetries, 0⟩

/-- Model of `Policy::retry` for `TooManyRequestsRetry`: given the policy state and the
transport's result, returns the backoff to sleep (in milliseconds) when a
retry is signalled — `none` means do-not-retry — together with the updated
policy state.  The result itself is never modified by the Rust code, so it is
taken by value and not returned. -/
def tooManyRequestsRetry (st : TooManyRequestsRetry)
    (result : Except ReqwestError HttpResponse) : Option Nat × TooManyRequestsRetry :=
  match result with
  | .ok response =>
    if !statusIsSuccess response.status then
      if response.status = 429 ∧ 0 < st.retriesRemaining then
        let duration : Nat :=
          match assoc response.headers "retry-after" with
          | some headerBytes =>
            match headerValueToStr headerBytes with
            | some s =>
              match parseU64 s with
              | some retryAfter => if retryAfter < 120 then 1000 * retryAfter else 500
              | none => 500
            | none => 500
          | none => 500
        (some duration,
         { retriesRemaining := st.retriesRemaining - 1,
           rateLimitedTime := st.rateLimitedTime + duration })
      else (none, st)
    else (none, st)
  | .error _ => (none, st)

/-- The claim's description of the retry decision, stated in its own words
for comparison with `tooManyRequestsRetry`: the backoff equals the
`Retry-After` header interpreted in seconds when it is present, parses as an
unsigned integer and is strictly below 120, and 500 ms in every other case;
on a 429 with budget left the budget is decremented and the backoff
accumulated, and every other result is left alone. -/
def claimRetryAfterSeconds (headers : List (String × List Nat)) : Option Nat :=
  ((assoc headers "retry-after").bind headerValueToStr).bind parseU64

/-- The backoff the claim prescribes, in milliseconds. -/
def claimBackoff (headers : List (String × List Nat)) : Nat :=
  match claimRetryAfterSeconds headers with
  | some n => if n < 120 then 1000 * n else 500
  | none => 500

/-- The retry decision the claim prescribes (spec-side definition, written
from the claim's words, to be proved equal to `tooManyRequestsRetry`). -/
def claimRetryDecision (st : TooManyRequestsRetry)
    (result : Except ReqwestError HttpResponse) : Option Nat × TooManyRequestsRetry :=
  match result with
  | .ok response =>
    if response.status = 429 ∧ 0 < st.retriesRemaining then
      (some (claimBackoff response.headers),
       { retriesRemaining := st.retriesRemaining - 1,
         rateLimitedTime := st.rateLimitedTime + claimBackoff response.headers })
    else (none, st)
  | .error _ => (none, st)

/-- Modelled from the documented semantics of `tower::retry::Retry` (an
external crate): call the wrapped transport, consult `Policy::retry`; when it
yields a sleep, retry with the cloned request, otherwise surface the result.
`transport i` is the resolved result of the `i`-th attempt; `fuel` bounds the
recursion and is irrelevant whenever it exceeds the retry budget.  Returns
(number of retries signalled, final result, final policy state). -/
def retryLoop (st : TooManyRequestsRetry)
    (transport : Nat → Except ReqwestError HttpResponse)
    (attempt : Nat) (fuel : Nat) :
    Nat × Except ReqwestError HttpResponse × TooManyRequestsRetry :=
  match fuel with
  | 0 => (0, transport attempt, st)
  | fuel' + 1 =>
    let result := transport attempt
    match tooManyRequestsRetry st result with
    | (none, st') => (0, result, st')
    | (some _, st') =>
      let rest := retryLoop st' transport (attempt + 1) fuel'
      (rest.1 + 1, rest.2.1, rest.2.2)

/-! Request cloning (`TooManyRequestsRetry::clone_request`) -/

/-- HTTP versions carried by a `reqwest::Request`. -/
inductive HttpVersion where
  | http09 : HttpVersion
  | http10 : HttpVersion
  | http11 : HttpVersion
  | http2 : HttpVersion
  | http3 : HttpVersion
deriving DecidableEq

/-- Model of a `reqwest::Body`: either buffered bytes (whose contents `as_bytes`
exposes) or a stream (`as_bytes` returns `None`). -/
inductive ReqBody where
  | bytes (bs : List Nat) : ReqBody
  | stream : ReqBody
deriving DecidableEq

/-- Model of `Body::as_bytes`. -/
def ReqBody.asBytes : ReqBody → Option (List Nat)
  | .bytes bs => some bs
  | .stream => none

/-- Model of a `reqwest::Request`. -/
structure Request where
  method : String
  url : String
  headers : List (String × List Nat)
  timeout : Option Nat
  version : HttpVersion
  body : Option ReqBody
deriving DecidableEq

/-- Model of `reqwest::Request::new`: empty headers, no timeout, no body, default
HTTP/1.1 version. -/
def Request.new (method : String) (url : String) : Request :=
  { method := method, url := url, headers := [], timeout := none,
    version := .http11, body := none }

/-- Model of `TooManyRequestsRetry::clone_request`: rebuild a request from the
original's method and URL, then copy headers, timeout, and the body's bytes
(a streaming body exposes no bytes, so the copy then carries no body). -/
def clone_request (req : Request) : Option Request :=
  let request := Request.new req.method req.url
  let request := { request with headers := req.headers }
  let request := { request with timeout := req.timeout }
  let request :=
    { request with body := ((req.body.bind ReqBody.asBytes).map ReqBody.bytes) }
  some request

/-- The bytes a request's body exposes through `Body::as_bytes`. -/
def Request.bodyBytes (req : Request) : Option (List Nat) :=
  req.body.bind ReqBody.asBytes

/-! Sender adapter (src/service/rpc_sender_impl.rs) -/

/-- The kinds of `solana_client::client_error::ClientError` this crate
constructs. -/
inductive ClientErrorKind where
  | custom (message : String) : ClientErrorKind
  | rpcError (e : RpcError) : ClientErrorKind
deriving DecidableEq

/-- Model of `solana_client::client_error::ClientError` (request context plus kind). -/
structure ClientError where
  request : Option RpcRequest
  kind : ClientErrorKind
deriving DecidableEq

/-- Model of `tower::BoxError` as the sender observes it: either a boxed `ClientError`
(recovered by `downcast`) or some other boxed error with a display string. -/
inductive BoxError where
  | clientError (e : ClientError) : BoxError
  | other (description : String) : BoxError
deriving DecidableEq

/-- Model of `RpcClientSender::send` after the pipeline future resolves: the readiness
result is only logged (never acted upon), `call` is always invoked — the
Boolean in the output records that — and the call's error is downcast to
`ClientError` or wrapped as a custom error tagged with the request method. -/
def rpcClientSenderSend (readyResult : Except BoxError Unit)
    (callService : SolanaClientRequest → Except BoxError Value)
    (request : RpcRequest) (params : Value) : Except ClientError Value × Bool :=
  match readyResult with
  | _ =>
    match callService (request, params) with
    | .ok v => (Except.ok v, true)
    | .error (.clientError clientErr) => (Except.error clientErr, true)
    | .error (.other msg) =>
      (Except.error { request := some request, kind := .custom msg }, true)

/-! Shared helper lemmas -/

theorem lookupCache_insert_self (cache : CacheMap) (k : Value) (e : CacheEntry) :
    lookupCache (insertCache cache k e) k = some e := by
  induction cache with
  | nil => simp [insertCache, lookupCache]
  | cons kv rest ih =>
    obtain ⟨k', e'⟩ := kv
    by_cases h : k' = k
    · simp [insertCache, h, lookupCache]
    · simp [insertCache, h, lookupCache, ih]

theorem responseCacheCall_hit (target : RpcRequest) (ttl : Nat)
    (inner : SolanaClientRequest → Except String Value)
    (cache : CacheMap) (now : Nat) (p : Value) (entry : CacheEntry)
    (hl : lookupCache cache p = some entry) (hfresh : now - entry.atTime < ttl) :
    responseCacheCall target ttl inner cache now (target, p) =
      (Except.ok entry.response, cache, false) := by
  unfold responseCacheCall
  simp [hl, hfresh]

theorem responseCacheCall_forward (target : RpcRequest) (ttl : Nat)
    (inner : SolanaClientRequest → Except String Value)
    (cache : CacheMap) (now : Nat) (p : Value)
    (hmiss : lookupCache cache p = none ∨
             ∃ entry, lookupCache cache p = some entry ∧ ¬ (now - entry.atTime < ttl)) :
    responseCacheCall target ttl inner cache now (target, p) =
      match inner (target, p) with
      | .ok v => (Except.ok v, insertCache cache p ⟨v, now⟩, true)
      | .error e => (Except.error e, cache, true) := by
  unfold responseCacheCall
  rcases hmiss with hl | ⟨entry, hl, hstale⟩
  · simp [hl]
  · simp [hl, hstale]

theorem tooManyRequestsRetry_eq_claim (st : TooManyRequestsRetry)
    (result : Except ReqwestError HttpResponse) :
    tooManyRequestsRetry st result = claimRetryDecision st result := by
  cases result with
  | error e => rfl
  | ok response =>
    by_cases h : response.status = 429 ∧ 0 < st.retriesRemaining
    · cases hh : assoc response.headers "retry-after" with
      | none =>
        simp [tooManyRequestsRetry, claimRetryDecision, claimBackoff,
              claimRetryAfterSeconds, statusIsSuccess, h, hh]
      | some hb =>
        cases hsv : headerValueToStr hb with
        | none =>
          simp [tooManyRequestsRetry, claimRetryDecision, claimBackoff,
                claimRetryAfterSeconds, statusIsSuccess, h, hh, hsv]
        | some s =>
          cases hp : parseU64 s with
          | none =>
            simp [tooManyRequestsRetry, claimRetryDecision, claimBackoff,
                  claimRetryAfterSeconds, statusIsSuccess, h, hh, hsv, hp]
          | some n =>
            simp [tooManyRequestsRetry, claimRetryDecision, claimBackoff,
                  claimRetryAfterSeconds, statusIsSuccess, h, hh, hsv, hp]
    · cases h1 : statusIsSuccess response.status <;>
        simp [tooManyRequestsRetry, claimRetryDecision, h1, h]

theorem tooManyRequestsRetry_no_budget (st : TooManyRequestsRetry) (resp : HttpResponse)
    (hr : st.retriesRemaining = 0) :
    tooManyRequestsRetry st (Except.ok resp) = (none, st) := by
  rw [tooManyRequestsRetry_eq_claim]
  unfold claimRetryDecision
  simp [hr]

theorem tooManyRequestsRetry_throttled (st : TooManyRequestsRetry) (resp : HttpResponse)
    (hs : resp.status = 429) (hr : 0 < st.retriesRemaining) :
    tooManyRequestsRetry st (Except.ok resp) =
      (some (claimBackoff resp.headers),
       ⟨st.retriesRemaining - 1, st.rateLimitedTime + claimBackoff resp.headers⟩) := by
  rw [tooManyRequestsRetry_eq_claim]
  unfold claimRetryDecision
  simp [hs, hr]

theorem retryLoop_step (st : TooManyRequestsRetry)
    (transport : Nat → Except ReqwestError HttpResponse) (attempt fuel : Nat) :
    retryLoop st transport attempt (fuel + 1) =
      match tooManyRequestsRetry st (transport attempt) with
      | (none, st') => (0, transport attempt, st')
      | (some _, st') =>
        ((retryLoop st' transport (attempt + 1) fuel).1 + 1,
         (retryLoop st' transport (attempt + 1) fuel).2.1,
         (retryLoop st' transport (attempt + 1) fuel).2.2) := rfl

/-! Claim theorems -/

/-- Claim C1: through a cache configured for method `target` with TTL `ttl`,
when a first call with method `target` and parameters `p` returns `Ok v`, the
cache afterwards holds an entry for `p` whose response is `v`, and any second
call with the same method and parameters made while that entry's age is below
the TTL returns the cached response `v`, leaves the cache unchanged, and does
not invoke the inner service (regardless of what the inner service would
answer). -/
theorem cache_second_call_within_ttl
    (target : RpcRequest) (ttl : Nat)
    (inner inner2 : SolanaClientRequest → Except String Value)
    (cache : CacheMap) (now : Nat) (p v : Value)
    (hok : (responseCacheCall target ttl inner cache now (target, p)).1 = Except.ok v) :
    ∃ entry,
      lookupCache (responseCacheCall target ttl inner cache now (target, p)).2.1 p =
        some entry ∧
      entry.response = v ∧
      ∀ now2, now2 - entry.atTime < ttl →
        responseCacheCall target ttl inner2
            (responseCacheCall target ttl inner cache now (target, p)).2.1 now2 (target, p) =
          (Except.ok v,
           (responseCacheCall target ttl inner cache now (target, p)).2.1, false) := by
  have key : ∃ entry,
      lookupCache (responseCacheCall target ttl inner cache now (target, p)).2.1 p =
        some entry ∧ entry.response = v := by
    by_cases hhit : ∃ entry, lookupCache cache p = some entry ∧ now - entry.atTime < ttl
    · obtain ⟨entry, hl, hfresh⟩ := hhit
      rw [responseCacheCall_hit target ttl inner cache now p entry hl hfresh] at hok ⊢
      exact ⟨entry, hl, by simpa using hok⟩
    · have hmiss : lookupCache cache p = none ∨
          ∃ entry, lookupCache cache p = some entry ∧ ¬ (now - entry.atTime < ttl) := by
        cases hl : lookupCache cache p with
        | none => exact Or.inl rfl
        | some entry =>
          exact Or.inr ⟨entry, rfl, fun hfresh => hhit ⟨entry, hl, hfresh⟩⟩
      rw [responseCacheCall_forward target ttl inner cache now p hmiss] at hok ⊢
      cases hi : inner (target, p) with
      | ok v' =>
        rw [hi] at hok
        have hv : v' = v := by simpa using hok
        subst hv
        refine ⟨⟨v', now⟩, ?_, rfl⟩
        show lookupCache (insertCache cache p ⟨v', now⟩) p = some ⟨v', now⟩
        exact lookupCache_insert_self cache p ⟨v', now⟩
      | error e =>
        rw [hi] at hok
        simp at hok
  obtain ⟨entry, hl2, hresp⟩ := key
  refine ⟨entry, hl2, hresp, fun now2 hfresh => ?_⟩
  rw [responseCacheCall_hit target ttl inner2 _ now2 p entry hl2 hfresh, hresp]

/-- Witness for C1: a `GetBalance` call against an empty cache that returns
`50` caches it, and a second call 3 ticks later (TTL 5) is served from the
cache without invoking the (now failing) inner service. -/
theorem cache_second_call_within_ttl_witness :
    ∃ entry,
      lookupCache (responseCacheCall RpcRequest.getBalance 5
          (fun _ => Except.ok (Value.num 50)) [] 0
          (RpcRequest.getBalance, Value.null)).2.1 Value.null = some entry ∧
      entry.response = Value.num 50 ∧
      ∀ now2, now2 - entry.atTime < 5 →
        responseCacheCall RpcRequest.getBalance 5 (fun _ => Except.error "inner failure")
            (responseCacheCall RpcRequest.getBalance 5
              (fun _ => Except.ok (Value.num 50)) [] 0
              (RpcRequest.getBalance, Value.null)).2.1 now2
            (RpcRequest.getBalance, Value.null) =
          (Except.ok (Value.num 50),
           (responseCacheCall RpcRequest.getBalance 5
             (fun _ => Except.ok (Value.num 50)) [] 0
             (RpcRequest.getBalance, Value.null)).2.1, false) :=
  cache_second_call_within_ttl RpcRequest.getBalance 5
    (fun _ => Except.ok (Value.num 50)) (fun _ => Except.error "inner failure")
    [] 0 Value.null (Value.num 50) (by decide)

/-- Claim C2: the 429-retry decision equals the claim's description — retry
with backoff exactly when the result is a response with status 429 and budget
remains, with the backoff taken from a present, integer-parsing `Retry-After`
header below 120 (in seconds) and 500 ms otherwise, decrementing the budget
and accumulating the backoff; every other result yields do-not-retry with the
state untouched. -/
theorem retry_decision_matches_claim (st : TooManyRequestsRetry)
    (result : Except ReqwestError HttpResponse) :
    tooManyRequestsRetry st result = claimRetryDecision st result :=
  tooManyRequestsRetry_eq_claim st result

/-- Counterexample to claim C3 as stated: the body `{}` parses as JSON and
contains neither a `result` field nor an `error` field, yet the parser yields
the success value `Ok(Null)`, not an error. -/
theorem parse_missing_fields_counterexample :
    parse_response_errors (Value.obj []) = some (Except.ok Value.null) ∧
    ¬ ∃ e, parse_response_errors (Value.obj []) = some (Except.error e) := by
  have h1 : parse_response_errors (Value.obj []) = some (Except.ok Value.null) := by
    decide
  refine ⟨h1, ?_⟩
  rintro ⟨e, he⟩
  rw [h1] at he
  simp at he

/-- Claim C3 as amended: for every body that parses as a JSON *object* with no
`result` field and no object-valued `error` field, the parser returns the
success value `Ok(Null)` (the missing `result` indexes as JSON null) and does
not panic. -/
theorem parse_object_missing_fields_is_null_success (fields : List (String × Value))
    (hres : assoc fields "result" = none)
    (herr : ((Value.obj fields).getKey "error").isObject = false) :
    parse_response_errors (Value.obj fields) = some (Except.ok Value.null) := by
  unfold parse_response_errors
  rw [herr]
  simp [Value.takeKey, hres]

/-- Witness for the amended C3 at the empty JSON object. -/
theorem parse_object_missing_fields_is_null_success_witness :
    parse_response_errors (Value.obj []) = some (Except.ok Value.null) :=
  parse_object_missing_fields_is_null_success [] (by decide) (by decide)

/-- Claim C4: with a retry budget of `n` and a transport whose every attempt
yields a status-429 response, the retry loop signals exactly `n` retries, ends
with an exhausted budget, and surfaces the last received throttled response
(still an `Ok` response with status 429, not a distinct error) as the final
result. -/
theorem retry_budget_exhaustion (n acc attempt : Nat)
    (transport : Nat → Except ReqwestError HttpResponse)
    (h : ∀ i, ∃ resp, transport i = Except.ok resp ∧ resp.status = 429) :
    (retryLoop ⟨n, acc⟩ transport attempt (n + 1)).1 = n ∧
    (retryLoop ⟨n, acc⟩ transport attempt (n + 1)).2.1 = transport (attempt + n) ∧
    (∃ resp, transport (attempt + n) = Except.ok resp ∧ resp.status = 429) ∧
    (retryLoop ⟨n, acc⟩ transport attempt (n + 1)).2.2.retriesRemaining = 0 := by
  induction n generalizing acc attempt with
  | zero =>
    obtain ⟨resp, ht, hs⟩ := h attempt
    have hdec : tooManyRequestsRetry ⟨0, acc⟩ (transport attempt) = (none, ⟨0, acc⟩) := by
      rw [ht]
      exact tooManyRequestsRetry_no_budget ⟨0, acc⟩ resp rfl
    rw [retryLoop_step, hdec]
    exact ⟨rfl, rfl, ⟨resp, ht, hs⟩, rfl⟩
  | succ n ih =>
    obtain ⟨resp, ht, hs⟩ := h attempt
    have hdec : tooManyRequestsRetry ⟨n + 1, acc⟩ (transport attempt) =
        (some (claimBackoff resp.headers),
         ⟨n, acc + claimBackoff resp.headers⟩) := by
      rw [ht]
      exact tooManyRequestsRetry_throttled ⟨n + 1, acc⟩ resp hs (Nat.succ_pos n)
    rw [retryLoop_step, hdec]
    obtain ⟨ih1, ih2, ih3, ih4⟩ := ih (acc + claimBackoff resp.headers) (attempt + 1)
    refine ⟨?_, ?_, ?_, ?_⟩
    · show (retryLoop ⟨n, acc + claimBackoff resp.headers⟩ transport
          (attempt + 1) (n + 1)).1 + 1 = n + 1
      rw [ih1]
    · show (retryLoop ⟨n, acc + claimBackoff resp.headers⟩ transport
          (attempt + 1) (n + 1)).2.1 = transport (attempt + (n + 1))
      rw [ih2]
      exact congrArg transport (by omega)
    · obtain ⟨resp2, ht2, hs2⟩ := ih3
      refine ⟨resp2, ?_, hs2⟩
      rw [show attempt + (n + 1) = attempt + 1 + n from by omega]
      exact ht2
    · show (retryLoop ⟨n, acc + claimBackoff resp.headers⟩ transport
          (attempt + 1) (n + 1)).2.2.retriesRemaining = 0
      exact ih4

/-- Witness for C4: budget 2 against an always-429 transport performs exactly
2 retries and surfaces the throttled response. -/
theorem retry_budget_exhaustion_witness :
    (retryLoop ⟨2, 0⟩ (fun _ => Except.ok ⟨429, []⟩) 0 3).1 = 2 ∧
    (retryLoop ⟨2, 0⟩ (fun _ => Except.ok ⟨429, []⟩) 0 3).2.1 =
      (fun _ => Except.ok (ε := ReqwestError) (HttpResponse.mk 429 [])) (0 + 2) ∧
    (∃ resp, (fun _ => Except.ok (ε := ReqwestError) (HttpResponse.mk 429 [])) (0 + 2) =
      Except.ok resp ∧ resp.status = 429) ∧
    (retryLoop ⟨2, 0⟩ (fun _ => Except.ok ⟨429, []⟩) 0 3).2.2.retriesRemaining = 0 :=
  retry_budget_exhaustion 2 0 0 (fun _ => Except.ok ⟨429, []⟩)
    (fun _ => ⟨⟨429, []⟩, rfl, rfl⟩)

/-- Claim C5: a call with the cached method whose parameters miss the cache or
hit only a stale entry forwards to the inner service; an `Ok v` answer is
stored under the parameters (overwriting via `insertCache`) and returned,
while an error answer is propagated with the cache left unchanged. -/
theorem cache_miss_or_stale_forwards (target : RpcRequest) (ttl : Nat)
    (inner : SolanaClientRequest → Except String Value)
    (cache : CacheMap) (now : Nat) (p : Value)
    (hmiss : lookupCache cache p = none ∨
             ∃ entry, lookupCache cache p = some entry ∧ ¬ (now - entry.atTime < ttl)) :
    (responseCacheCall target ttl inner cache now (target, p)).2.2 = true ∧
    (∀ v, inner (target, p) = Except.ok v →
       responseCacheCall target ttl inner cache now (target, p) =
         (Except.ok v, insertCache cache p ⟨v, now⟩, true)) ∧
    (∀ e, inner (target, p) = Except.error e →
       responseCacheCall target ttl inner cache now (target, p) =
         (Except.error e, cache, true)) := by
  rw [responseCacheCall_forward target ttl inner cache now p hmiss]
  refine ⟨?_, ?_, ?_⟩
  · cases hi : inner (target, p) <;> simp [hi]
  · intro v hv
    rw [hv]
  · intro e he
    rw [he]

/-- Witness for C5: both forwarding outcomes at an empty cache — a successful
inner answer is cached, a failing one leaves the cache empty. -/
theorem cache_miss_or_stale_forwards_witness :
    (responseCacheCall RpcRequest.getBalance 5 (fun _ => Except.ok (Value.num 50))
       [] 7 (RpcRequest.getBalance, Value.null)) =
      (Except.ok (Value.num 50), insertCache [] Value.null ⟨Value.num 50, 7⟩, true) ∧
    (responseCacheCall RpcRequest.getBalance 5 (fun _ => Except.error "boom")
       [] 7 (RpcRequest.getBalance, Value.null)) =
      (Except.error "boom", [], true) :=
  ⟨(cache_miss_or_stale_forwards RpcRequest.getBalance 5
      (fun _ => Except.ok (Value.num 50)) [] 7 Value.null (Or.inl rfl)).2.1
      (Value.num 50) rfl,
   (cache_miss_or_stale_forwards RpcRequest.getBalance 5
      (fun _ => Except.error "boom") [] 7 Value.null (Or.inl rfl)).2.2
      "boom" rfl⟩

/-- Claim C6: the early-return interceptor returns `f`'s fabricated response
without invoking the inner service when `f` yields one, and otherwise forwards
the request unchanged to the inner service. -/
theorem early_return_short_circuits
    (f : RpcRequest → Value → Option (Except String Value))
    (inner : SolanaClientRequest → Except String Value) (req : SolanaClientRequest) :
    (∀ r, f req.1 req.2 = some r → maybeEarlyReturnCall f inner req = (r, false)) ∧
    (f req.1 req.2 = none → maybeEarlyReturnCall f inner req = (inner req, true)) := by
  constructor
  · intro r h
    unfold maybeEarlyReturnCall
    rw [h]
  · intro h
    unfold maybeEarlyReturnCall
    rw [h]

/-- Witness for C6: a predicate matching `GetBalance` short-circuits with its
fabricated response; on `GetVersion` it forwards to the inner service. -/
theorem early_return_short_circuits_witness :
    maybeEarlyReturnCall
      (fun m _ => if m = RpcRequest.getBalance
                  then some (Except.ok (Value.num 7)) else none)
      (fun _ => Except.ok Value.null) (RpcRequest.getBalance, Value.null) =
      (Except.ok (Value.num 7), false) ∧
    maybeEarlyReturnCall
      (fun m _ => if m = RpcRequest.getBalance
                  then some (Except.ok (Value.num 7)) else none)
      (fun _ => Except.ok Value.null) (RpcRequest.getVersion, Value.null) =
      (Except.ok Value.null, true) :=
  ⟨(early_return_short_circuits _ _ _).1 (Except.ok (Value.num 7)) (by decide),
   (early_return_short_circuits _ _ _).2 (by decide)⟩

/-- Claim C7: `clone_request` always yields a request with the same method,
URL, headers and timeout as the original, and whose body exposes the same
bytes through `as_bytes` as the original's body. -/
theorem clone_request_preserves_request (req : Request) :
    ∃ cloned, clone_request req = some cloned ∧
      cloned.method = req.method ∧ cloned.url = req.url ∧
      cloned.headers = req.headers ∧ cloned.timeout = req.timeout ∧
      cloned.bodyBytes = req.bodyBytes := by
  obtain ⟨m, u, hs, t, ver, b⟩ := req
  cases b with
  | none => exact ⟨_, rfl, rfl, rfl, rfl, rfl, rfl⟩
  | some body => cases body <;> exact ⟨_, rfl, rfl, rfl, rfl, rfl, rfl⟩

/-- Claim C8: `send` produces the same outcome whatever the readiness check
returned, always invokes `call`, and returns an error only when the pipeline
call itself errored — a readiness failure alone never fails the dispatch. -/
theorem send_ignores_ready_errors
    (ready1 ready2 : Except BoxError Unit)
    (callService : SolanaClientRequest → Except BoxError Value)
    (request : RpcRequest) (params : Value) :
    rpcClientSenderSend ready1 callService request params =
      rpcClientSenderSend ready2 callService request params ∧
    (rpcClientSenderSend ready1 callService request params).2 = true ∧
    ∀ e, (rpcClientSenderSend ready1 callService request params).1 = Except.error e →
      ∃ be, callService (request, params) = Except.error be := by
  unfold rpcClientSenderSend
  cases h : callService (request, params) with
  | ok v =>
    refine ⟨rfl, rfl, ?_⟩
    intro e he
    simp at he
  | error be =>
    cases be with
    | clientError ce => exact ⟨rfl, rfl, fun e _ => ⟨.clientError ce, rfl⟩⟩
    | other msg => exact ⟨rfl, rfl, fun e _ => ⟨.other msg, rfl⟩⟩

/-- Witness for C8: a failed readiness check and a successful one dispatch a
`GetBalance` call identically. -/
theorem send_ignores_ready_errors_witness :
    rpcClientSenderSend (Except.error (BoxError.other "not ready"))
        (fun _ => Except.ok (Value.num 50)) RpcRequest.getBalance Value.null =
      rpcClientSenderSend (Except.ok ())
        (fun _ => Except.ok (Value.num 50)) RpcRequest.getBalance Value.null ∧
    (rpcClientSenderSend (Except.error (BoxError.other "not ready"))
        (fun _ => Except.ok (Value.num 50)) RpcRequest.getBalance Value.null).2 = true ∧
    ∀ e, (rpcClientSenderSend (Except.error (BoxError.other "not ready"))
        (fun _ => Except.ok (Value.num 50)) RpcRequest.getBalance Value.null).1 =
          Except.error e →
      ∃ be, (fun (_ : SolanaClientRequest) => Except.ok (ε := BoxError) (Value.num 50))
          (RpcRequest.getBalance, Value.null) = Except.error be :=
  send_ignores_ready_errors (Except.error (BoxError.other "not ready")) (Except.ok ())
    (fun _ => Except.ok (Value.num 50)) RpcRequest.getBalance Value.null

/-- Claim C9: when the decoded error object carries the preflight-failure or
node-unhealthy code but its `data` member does not deserialize into the
corresponding structured type, `parse_rpc_error` still returns an
`RpcResponseError` with the original code and message and `Empty` data. -/
theorem parse_rpc_error_undecodable_data (json : Value) (errObj : RpcErrorObject)
    (hdec : decodeRpcErrorObject json = some errObj)
    (hbad : (errObj.code = PREFLIGHT_FAILURE ∧
               decodeRpcSimulateTransactionResult (json.getKey "data") = none) ∨
            (errObj.code = NODE_UNHEALTHY ∧
               decodeNodeUnhealthyErrorData (json.getKey "data") = none)) :
    parse_rpc_error json =
      Except.error (.rpcResponseError errObj.code errObj.message .empty) := by
  unfold parse_rpc_error
  rw [hdec]
  rcases hbad with ⟨hc, hd⟩ | ⟨hc, hd⟩
  · simp [hc, hd]
  · have hne : NODE_UNHEALTHY ≠ PREFLIGHT_FAILURE := by decide
    simp [hc, hne, hd]

/-- Witness for C9: a preflight-failure error object whose `data` is absent
(so it indexes as JSON null, which the structured type rejects) still parses
to a response error with `Empty` data. -/
theorem parse_rpc_error_undecodable_data_witness :
    parse_rpc_error (Value.obj [("code", Value.num (-32002)),
                                ("message", Value.str "preflight")]) =
      Except.error (.rpcResponseError (-32002) "preflight" .empty) :=
  parse_rpc_error_undecodable_data
    (Value.obj [("code", Value.num (-32002)), ("message", Value.str "preflight")])
    ⟨-32002, "preflight"⟩ (by decide) (Or.inl ⟨by decide, by decide⟩)

/-- Claim C10: a request whose method differs from the cache's configured
method is forwarded unchanged to the inner service, and the cache map after
the call equals the cache map before it. -/
theorem cache_other_method_frame (target : RpcRequest) (ttl : Nat)
    (inner : SolanaClientRequest → Except String Value)
    (cache : CacheMap) (now : Nat) (req : SolanaClientRequest)
    (h : req.1 ≠ target) :
    responseCacheCall target ttl inner cache now req = (inner req, cache, true) := by
  unfold responseCacheCall
  simp [h]

/-- Witness for C10: a `GetVersion` request through a `GetBalance`-scoped
cache passes straight through and leaves the (nonempty) cache untouched. -/
theorem cache_other_method_frame_witness :
    responseCacheCall RpcRequest.getBalance 5 (fun _ => Except.ok (Value.num 9))
        [(Value.null, ⟨Value.num 50, 0⟩)] 3 (RpcRequest.getVersion, Value.null) =
      (Except.ok (Value.num 9), [(Value.null, ⟨Value.num 50, 0⟩)], true) :=
  cache_other_method_frame RpcRequest.getBalance 5 (fun _ => Except.ok (Value.num 9))
    [(Value.null, ⟨Value.num 50, 0⟩)] 3 (RpcRequest.getVersion, Value.null) (by decide)

end SolanaRpcTower
